import Mathlib

/-!
# GEMMA `src/debug.h`: diagnostics header

A shallow embedding of the inline functions and preprocessor definitions of
`debug.h`, and the properties of its failure paths.

Observable behaviour is the text written to standard output (`std::cout`), the
text written to standard error (`std::cerr`), and the way control leaves an
operation: it returns to the caller, the process ends through `exit(code)`, or
the behaviour is undefined (integer division by zero, signed overflow).
-/

namespace Debug

/-! ## Process state -/

/-- Modelled from the spec: the process-wide diagnostic flags. The header only
declares their setters and queries (`debug_set_*`, `is_*`); the variables and
the function bodies live in `debug.cpp`. -/
structure Flags where
  debug_mode : Bool
  no_check_mode : Bool
  strict_mode : Bool
  quiet_mode : Bool
  issue : Nat
  legacy_mode : Bool
deriving DecidableEq, Repr

/-- What an operation of the header can read or change: the flags and the text
written so far to `std::cout` and `std::cerr`. -/
structure World where
  flags : Flags
  cout : String
  cerr : String
deriving DecidableEq, Repr

/-- How control leaves a computation. -/
inductive Outcome (α : Type) where
  /-- Control returns to the caller with a value. -/
  | ret (a : α) (w : World)
  /-- The process was ended by `exit(code)`. -/
  | exit (code : Nat) (w : World)
  /-- Undefined behaviour was reached (integer division by zero, overflow of a
  signed product). -/
  | undefined (w : World)
deriving DecidableEq, Repr

/-- A C++ expression or statement: it runs in a world and leaves it in one of
the three ways of `Outcome`. -/
def Proc (α : Type) : Type := World → Outcome α

/-- Sequencing: the continuation runs only when the first part returns. -/
def Proc.bind {α β : Type} (p : Proc α) (k : α → Proc β) : Proc β := fun w =>
  match p w with
  | .ret a w1 => k a w1
  | .exit c w1 => .exit c w1
  | .undefined w1 => .undefined w1

instance : Monad Proc where
  pure a := fun w => .ret a w
  bind := Proc.bind

/-- The world in which an outcome leaves the process. -/
def Outcome.world {α : Type} : Outcome α → World
  | .ret _ w => w
  | .exit _ w => w
  | .undefined w => w

/-- The exit status, when the process was ended by `exit`. -/
def Outcome.exitCode {α : Type} : Outcome α → Option Nat
  | .exit c _ => some c
  | _ => none

/-- Whether control came back to the caller. -/
def Outcome.returned {α : Type} : Outcome α → Bool
  | .ret _ _ => true
  | _ => false

/-! ## Primitives of the standard library -/

/-- `std::cout << s`. -/
def cout_put (s : String) : Proc Unit := fun w =>
  .ret () { w with cout := w.cout ++ s }

/-- `std::cerr << s`. -/
def cerr_put (s : String) : Proc Unit := fun w =>
  .ret () { w with cerr := w.cerr ++ s }

/-- `std::endl` on `std::cout`. -/
def cout_endl : Proc Unit := cout_put "\n"

/-- `std::endl` on `std::cerr`. -/
def cerr_endl : Proc Unit := cerr_put "\n"

/-- `exit(code)`. -/
def exit (code : Nat) : Proc Unit := fun w => .exit code w

/-- `a / b` on integers that are not negative: undefined when the divisor is
zero. -/
def udiv (a b : Nat) : Proc Nat := fun w =>
  if b = 0 then .undefined w else .ret (a / b) w

/-- `std::string::c_str()`. Text is modelled by `String`, standing for a
sequence of characters without NUL; a `const char*` is identified with the
characters it points to, so the C string has the characters of the string. -/
def c_str (s : String) : String := s

/-- The call site an expansion captures: `__FILE__`, `__LINE__` and
`__SHOW_FUNC` (which is `__func__` in both build modes). -/
structure Site where
  file : String
  line : Nat
  func : String
deriving DecidableEq, Repr

/-! ## `debug.h` -/

/-- `__enforce_fail` (debug.h:104-110). -/
def __enforce_fail (__assertion __file : String) (__line : Nat)
    (__function : String) : Proc Unit := do
  cout_put "ERROR: Enforce failed for "
  cout_put __assertion
  cout_put " in "
  cout_put __file
  cout_put " at line "
  cout_put (toString __line)
  cout_put " in "
  cout_put __function
  cout_endl
  exit 1

/-- `enforce(expr)` (debug.h:112-115). `text` is `__STRING(expr)`, the
spelling of the argument. -/
def enforce (expr : Proc Bool) (text : String) (s : Site) : Proc Unit := do
  if (← expr) then pure () else __enforce_fail text s.file s.line s.func

/-- `enforce_msg(expr, msg)` (debug.h:117-119). -/
def enforce_msg (expr : Proc Bool) (msg : Proc String) (s : Site) : Proc Unit := do
  if (← expr) then pure () else __enforce_fail (← msg) s.file s.line s.func

/-- `enforce_str(expr, msg)` (debug.h:121-124); `msg` is a `std::string`. -/
def enforce_str (expr : Proc Bool) (msg : Proc String) (s : Site) : Proc Unit := do
  if (← expr) then pure () else __enforce_fail (c_str (← msg)) s.file s.line s.func

/-- `enforce_gsl(expr)` (debug.h:130-135). `gsl_strerror` belongs to the GNU
Scientific Library and is taken as given. -/
def enforce_gsl (gsl_strerror : Int → String) (expr : Proc Int) (s : Site) :
    Proc Unit := do
  let res ← expr
  if res == 0 then pure () else __enforce_fail (gsl_strerror res) s.file s.line s.func

/-- The width of `int` on the platforms GEMMA is built for. -/
def int_bits : Nat := 32

/-- `m * n` for two operands of an unsigned type of `w` bits, after the usual
arithmetic conversions of C++. A type narrower than `int` (`unsigned char`,
`unsigned short`) is promoted to `int`: the product is the true product, of
type `int`, and its overflow is undefined. A type at least as wide as `int`
(`unsigned`, `size_t`) is not promoted: the product is reduced modulo `2 ^ w`. -/
def umul (w m n : Nat) : Proc Nat := fun wd =>
  if w < int_bits then
    if m * n < 2 ^ (int_bits - 1) then .ret (m * n) wd else .undefined wd
  else .ret ((m * n) % 2 ^ w) wd

/-- `check_int_mult_overflow(m,n)` (debug.h:28-30) for operands of an unsigned
type of `w` bits: `auto x = m * n` stores the product computed by `umul`, and
`x / m == n` divides it by the first operand. The operands are identifiers or
literals holding the values `m` and `n`; the expansion inserts their text
without parentheses, so an operand that is itself an operator expression is
not covered. -/
def check_int_mult_overflow (w m n : Nat) (s : Site) : Proc Unit := do
  let x ← umul w m n
  enforce_msg (do let q ← udiv x m; pure (q == n)) (pure "multiply integer overflow") s

/-- `warning_at_msg(__file,__line,msg)` (debug.h:51). The operands are
inserted from left to right. -/
def warning_at_msg (__file __line msg : Proc String) : Proc Unit := do
  cerr_put "**** WARNING: "
  cerr_put (← msg)
  cerr_put " in "
  cerr_put (← __file)
  cerr_put " at line "
  cerr_put (← __line)
  cerr_endl

/-- `warnfail_at_msg` (debug.h:53-61). -/
def warnfail_at_msg (strict : Bool) (__function __file : String) (__line : Int)
    (msg : String) : Proc Unit := do
  if strict then
    cerr_put "**** STRICT FAIL: "
  else
    cerr_put "**** WARNING: "
  cerr_put msg
  cerr_put " in "
  cerr_put __file
  cerr_put " at line "
  cerr_put (toString __line)
  cerr_put " in "
  cerr_put __function
  cerr_endl
  if strict then
    exit 1

/-- `fail_at_msg` (debug.h:63-66). -/
def fail_at_msg (__file : String) (__line : Int) (msg : String) : Proc Unit := do
  cerr_put msg
  cerr_put " in "
  cerr_put __file
  cerr_put " at line "
  cerr_put (toString __line)
  cerr_endl
  exit 1

/-- `fail_msg(const char *msg)` (debug.h:72-75). -/
def fail_msg (msg : String) : Proc Unit := do
  cerr_put "**** FAILED: "
  cerr_put msg
  cerr_endl
  exit 5

/-- `fail_msg(std::string msg)` (debug.h:77-80), the second overload. -/
def fail_msg_string (msg : String) : Proc Unit := do
  cerr_put "**** FAILED: "
  cerr_put msg
  cerr_endl
  exit 5

/-- Modelled from the spec: `is_debug_mode()`, declared at debug.h:20 and
defined in `debug.cpp`; it reads the debug-mode flag. -/
def is_debug_mode : Proc Bool := fun w => .ret w.flags.debug_mode w

/-- Modelled from the spec: `is_quiet_mode()`, declared at debug.h:24 and
defined in `debug.cpp`; it reads the quiet-mode flag. -/
def is_quiet_mode : Proc Bool := fun w => .ret w.flags.quiet_mode w

/-- Modelled from the spec: `debug_set_quiet_mode(setting)`, declared at
debug.h:16 and defined in `debug.cpp`; it stores the setting verbatim. -/
def debug_set_quiet_mode (setting : Bool) : Proc Unit := fun w =>
  .ret () { w with flags := { w.flags with quiet_mode := setting } }

/-- `warning_msg(msg)` (debug.h:85 with `NDEBUG`, debug.h:93 without).
`ndebug` tells whether `NDEBUG` is defined. -/
def warning_msg (ndebug : Bool) (msg : Proc String) (s : Site) : Proc Unit :=
  if ndebug then do
    cerr_put "**** WARNING: "
    cerr_put (← msg)
    cerr_endl
  else do
    cerr_put "**** WARNING: "
    cerr_put (← msg)
    cerr_put " in "
    cerr_put s.file
    cerr_put " at line "
    cerr_put (toString s.line)
    cerr_put " in "
    cerr_put s.func
    cerr_endl

/-- `debug_msg(msg)` (debug.h:86 with `NDEBUG`, debug.h:94 without): with
`NDEBUG` the expansion is empty; otherwise `&&` short-circuits on
`is_debug_mode()`. -/
def debug_msg (ndebug : Bool) (msg : Proc String) (s : Site) : Proc Unit :=
  if ndebug then pure ()
  else do
    if (← is_debug_mode) then
      cerr_put "**** DEBUG: "
      cerr_put (← msg)
      cerr_put " in "
      cerr_put s.file
      cerr_put " at line "
      cerr_put (toString s.line)
      cerr_put " in "
      cerr_put s.func
      cerr_endl

/-- `assert_issue(is_issue, expr)` (debug.h:87 with `NDEBUG`, debug.h:95-96
without): with `NDEBUG` the expansion is empty. -/
def assert_issue (ndebug : Bool) (is_issue expr : Proc Bool) (s : Site) : Proc Unit :=
  if ndebug then pure ()
  else do
    if (← is_issue) then enforce_msg expr (pure "FAIL: ISSUE assert") s else pure ()

/-! ## Reference texts -/

/-- The line an enforce failure is documented to write, for the text `t`
reported at the call site `s`. -/
def enforce_failed_line (t : String) (s : Site) : String :=
  "ERROR: Enforce failed for " ++ t ++ " in " ++ s.file ++ " at line " ++
    toString s.line ++ " in " ++ s.func ++ "\n"

/-- The text `<msg> in <file> at line <line> in <function>` and the newline
that follow the tag of a located warning. -/
def located_text (msg file line func : String) : String :=
  msg ++ " in " ++ file ++ " at line " ++ line ++ " in " ++ func ++ "\n"

/-- What a run shows from outside: the text on standard output, the text on
standard error, the exit status if the process was ended, and whether control
came back to the caller. -/
def Outcome.observed {α : Type} (o : Outcome α) : String × String × Option Nat × Bool :=
  (o.world.cout, o.world.cerr, o.exitCode, o.returned)

/-- The world after `debug_set_quiet_mode(setting)`. -/
def World.set_quiet (w : World) (setting : Bool) : World :=
  (debug_set_quiet_mode setting w).world

/-- A world with all flags off and nothing written. -/
def World.init : World :=
  { flags := ⟨false, false, false, false, 0, false⟩, cout := "", cerr := "" }

/-! ## Auxiliary facts -/

theorem enforce_fail_outcome (a f : String) (l : Nat) (fn : String) (w : World) :
    __enforce_fail a f l fn w =
      .exit 1 { w with cout := w.cout ++ enforce_failed_line a ⟨f, l, fn⟩ } := by
  simp [__enforce_fail, enforce_failed_line, bind, Proc.bind, cout_put, cout_endl, exit,
    String.append_assoc]

theorem enforce_msg_pure (b : Bool) (msg : String) (s : Site) (w : World) :
    enforce_msg (pure b) (pure msg) s w =
      if b then .ret () w
      else .exit 1 { w with cout := w.cout ++ enforce_failed_line msg s } := by
  cases b <;> simp [enforce_msg, bind, Proc.bind, pure, enforce_fail_outcome]

/-- The wrapped product divided by a positive first operand is below the second
operand as soon as the true product reaches `2 ^ w`. -/
theorem wrapped_quotient_lt (w m n : Nat) (h : 2 ^ w ≤ m * n) :
    (m * n) % 2 ^ w / m < n := by
  have hpos : 0 < 2 ^ w := Nat.two_pow_pos w
  have hm : 0 < m := by
    rcases Nat.eq_zero_or_pos m with h0 | h0
    · subst h0; simp at h
    · exact h0
  have hlt : (m * n) % 2 ^ w < n * m := by
    have := Nat.mod_lt (m * n) hpos
    rw [Nat.mul_comm n m]; omega
  exact (Nat.div_lt_iff_lt_mul hm).2 hlt

/-- For a positive first operand and a product that fits, the check passes. -/
theorem check_int_mult_overflow_passes (w m n : Nat) (s : Site) (wd : World)
    (hm : 0 < m) (h : m * n < 2 ^ w) :
    check_int_mult_overflow w m n s wd = .ret () wd := by
  have hm0 : m ≠ 0 := Nat.pos_iff_ne_zero.mp hm
  have hd : m * n / m = n := Nat.mul_div_cancel_left n hm
  by_cases hw : w < int_bits
  · have hle : 2 ^ w ≤ 2 ^ (int_bits - 1) :=
      Nat.pow_le_pow_right (by decide) (by omega)
    have hfit : m * n < 2 ^ (int_bits - 1) := Nat.lt_of_lt_of_le h hle
    simp [check_int_mult_overflow, umul, enforce_msg, bind, Proc.bind, pure, udiv, hm0, hd,
      hw, hfit]
  · have hx : (m * n) % 2 ^ w / m = n := by
      rw [Nat.mod_eq_of_lt h]; exact hd
    simp [check_int_mult_overflow, umul, enforce_msg, bind, Proc.bind, pure, udiv, hm0, hx,
      hw]

/-- For operands of a type narrower than `int`, a positive first operand and a
product that fits in `int`, the check passes whatever the width of the type. -/
theorem check_int_mult_overflow_promoted (w m n : Nat) (s : Site) (wd : World)
    (hw : w < int_bits) (hm : 0 < m) (h : m * n < 2 ^ (int_bits - 1)) :
    check_int_mult_overflow w m n s wd = .ret () wd := by
  have hm0 : m ≠ 0 := Nat.pos_iff_ne_zero.mp hm
  have hd : m * n / m = n := Nat.mul_div_cancel_left n hm
  simp [check_int_mult_overflow, umul, enforce_msg, bind, Proc.bind, pure, udiv, hm0, hd,
    hw, h]

/-! ## The enforce family -/

/-- C1: for every value `b` of the checked expression and every call site,
`enforce`, `enforce_msg` and `enforce_str` return with nothing written when `b`
is true (the message operand is then not even evaluated); when `b` is false
they append exactly the line `ERROR: Enforce failed for <T> in <file> at line
<line> in <function>` to standard output, leave standard error untouched and
the process ends with exit code 1, where `<T>` is the expression text for
`enforce` and the supplied message for `enforce_msg` and `enforce_str`. Given
the same text the three are the same computation. -/
theorem enforce_family_contract (b : Bool) (text msg : String) (s : Site) (w : World) :
    (enforce (pure b) text s w =
      if b then .ret () w
      else .exit 1 { w with cout := w.cout ++ enforce_failed_line text s }) ∧
    (enforce_msg (pure b) (pure msg) s w =
      if b then .ret () w
      else .exit 1 { w with cout := w.cout ++ enforce_failed_line msg s }) ∧
    (enforce_str (pure b) (pure msg) s w =
      if b then .ret () w
      else .exit 1 { w with cout := w.cout ++ enforce_failed_line msg s }) ∧
    (∀ m : Proc String, enforce_msg (pure true) m s w = .ret () w ∧
      enforce_str (pure true) m s w = .ret () w) ∧
    (∀ expr : Proc Bool, enforce_msg expr (pure text) s = enforce expr text s ∧
      enforce_str expr (pure text) s = enforce expr text s) := by
  refine ⟨?_, enforce_msg_pure b msg s w, ?_, ?_, ?_⟩
  · cases b <;> simp [enforce, bind, Proc.bind, pure, enforce_fail_outcome]
  · cases b <;> simp [enforce_str, c_str, bind, Proc.bind, pure, enforce_fail_outcome]
  · intro m
    constructor <;> simp [enforce_msg, enforce_str, bind, Proc.bind, pure]
  · intro expr
    constructor <;> funext w1 <;>
      simp only [enforce, enforce_msg, enforce_str, c_str, bind, Proc.bind, pure] <;>
      rcases expr w1 with ⟨_ | _, w2⟩ | ⟨c, w2⟩ | w2 <;> simp [Proc.bind]

/-! ## The multiplication overflow check -/

/-- C2 at a first operand equal to zero: the product is zero for every `n` and
every width, so it does not overflow, yet the quotient `x / m` divides by zero.
The behaviour is undefined; the check is not a silent return to the caller. -/
theorem check_int_mult_overflow_zero_operand (w n : Nat) (s : Site) (wd : World) :
    0 * n < 2 ^ w ∧
    check_int_mult_overflow w 0 n s wd = .undefined wd ∧
    check_int_mult_overflow w 0 n s wd ≠ .ret () wd := by
  have h : check_int_mult_overflow w 0 n s wd = .undefined wd := by
    by_cases hw : w < int_bits <;>
      simp [check_int_mult_overflow, umul, enforce_msg, bind, Proc.bind, udiv, hw]
  refine ⟨?_, h, ?_⟩
  · simp
  · rw [h]; simp

/-- C3, as stated, fails: for `unsigned short` operands (`w = 16`) with
`m = n = 256` the true product `65536` reaches `2 ^ 16`, but the operands are
promoted to `int`, the stored product is `65536` and not `65536 mod 2 ^ 16`,
the quotient `65536 / 256` equals `n`, and the check returns with nothing
written instead of reporting. -/
theorem check_int_mult_overflow_unsigned_short :
    256 < 2 ^ 16 ∧ 2 ^ 16 ≤ 256 * 256 ∧
    umul 16 256 256 World.init = .ret 65536 World.init ∧
    65536 / 256 = 256 ∧
    check_int_mult_overflow 16 256 256 ⟨"lmm.cpp", 120, "Analyze"⟩ World.init =
      .ret () World.init ∧
    (check_int_mult_overflow 16 256 256 ⟨"lmm.cpp", 120, "Analyze"⟩ World.init).exitCode ≠
      some 1 := by
  decide

/-- C3, amended: for operands of an unsigned `w`-bit type at least as wide as
`int`, which is not promoted so that the stored product is `m * n mod 2 ^ w`,
and whose true product reaches `2 ^ w`, the quotient of the stored product by
`m` differs from `n`, and the check writes the enforce failure line with the
text `multiply integer overflow` to standard output and exits with code 1. -/
theorem check_int_mult_overflow_reports (w m n : Nat) (s : Site) (wd : World)
    (hw : int_bits ≤ w) (_ : m < 2 ^ w) (_ : n < 2 ^ w) (h : 2 ^ w ≤ m * n) :
    umul w m n wd = .ret ((m * n) % 2 ^ w) wd ∧
    (m * n) % 2 ^ w / m ≠ n ∧
    check_int_mult_overflow w m n s wd =
      .exit 1 { wd with cout := wd.cout ++
        enforce_failed_line "multiply integer overflow" s } := by
  have hq : (m * n) % 2 ^ w / m ≠ n := Nat.ne_of_lt (wrapped_quotient_lt w m n h)
  have hm0 : m ≠ 0 := by
    rintro rfl
    have := Nat.two_pow_pos w
    simp at h
  have hnw : ¬ w < int_bits := Nat.not_lt.mpr hw
  refine ⟨by simp [umul, hnw], hq, ?_⟩
  simp [check_int_mult_overflow, umul, enforce_msg, bind, Proc.bind, pure, udiv, hm0, hq,
    hnw, enforce_fail_outcome]

theorem check_int_mult_overflow_reports_witness :
    (int_bits ≤ 64 ∧ 2 ^ 32 < 2 ^ 64 ∧ 2 ^ 32 < 2 ^ 64 ∧ 2 ^ 64 ≤ 2 ^ 32 * 2 ^ 32) ∧
    (umul 64 (2 ^ 32) (2 ^ 32) World.init =
      .ret ((2 ^ 32 * 2 ^ 32) % 2 ^ 64) World.init ∧
    (2 ^ 32 * 2 ^ 32) % 2 ^ 64 / 2 ^ 32 ≠ 2 ^ 32 ∧
    check_int_mult_overflow 64 (2 ^ 32) (2 ^ 32) ⟨"lmm.cpp", 120, "Analyze"⟩ World.init =
      .exit 1 { flags := World.init.flags, cerr := "", cout :=
        "ERROR: Enforce failed for multiply integer overflow in lmm.cpp at line 120 in Analyze\n" }) :=
  ⟨⟨by decide, by decide, by decide, by decide⟩,
    check_int_mult_overflow_reports 64 (2 ^ 32) (2 ^ 32) ⟨"lmm.cpp", 120, "Analyze"⟩
      World.init (by decide) (by decide) (by decide) (by decide)⟩

/-! ## Library result codes -/

/-- C4: `enforce_gsl` runs the wrapped expression exactly once (its effect on
the world is that of one evaluation, and an expression that does not return
stops the statement); for a result code `r` it returns with nothing written if
and only if `r = 0`, and for every other `r` it writes the enforce failure line
carrying `gsl_strerror(r)` to standard output and exits with code 1, which is
what `__enforce_fail` does with that text. -/
theorem enforce_gsl_contract (gsl_strerror : Int → String) (expr : Proc Int) (r : Int)
    (s : Site) (w : World) :
    (enforce_gsl gsl_strerror expr s w =
      match expr w with
      | .ret res w1 =>
        if res = 0 then .ret () w1
        else .exit 1 { w1 with cout := w1.cout ++ enforce_failed_line (gsl_strerror res) s }
      | .exit c w1 => .exit c w1
      | .undefined w1 => .undefined w1) ∧
    (enforce_gsl gsl_strerror (pure r) s w =
      if r = 0 then .ret () w
      else .exit 1 { w with cout := w.cout ++ enforce_failed_line (gsl_strerror r) s }) ∧
    (enforce_gsl gsl_strerror (pure r) s w = .ret () w ↔ r = 0) ∧
    (enforce_gsl gsl_strerror (pure r) s w =
      if r = 0 then .ret () w else __enforce_fail (gsl_strerror r) s.file s.line s.func w) := by
  have key : ∀ e : Proc Int, enforce_gsl gsl_strerror e s w =
      match e w with
      | .ret res w1 =>
        if res = 0 then .ret () w1
        else .exit 1 { w1 with cout := w1.cout ++ enforce_failed_line (gsl_strerror res) s }
      | .exit c w1 => .exit c w1
      | .undefined w1 => .undefined w1 := by
    intro e
    simp only [enforce_gsl, bind, Proc.bind]
    cases e w with
    | ret res w1 =>
      by_cases h0 : res = 0 <;> simp [h0, pure, enforce_fail_outcome]
    | exit c w1 => rfl
    | undefined w1 => rfl
  have hp : enforce_gsl gsl_strerror (pure r) s w =
      if r = 0 then .ret () w
      else .exit 1 { w with cout := w.cout ++ enforce_failed_line (gsl_strerror r) s } := by
    rw [key]
  refine ⟨key expr, hp, ?_, ?_⟩
  · rw [hp]
    by_cases h0 : r = 0 <;> simp [h0]
  · rw [hp]
    by_cases h0 : r = 0 <;> simp [h0, enforce_fail_outcome]

/-! ## Failure helpers -/

theorem warnfail_at_msg_outcome (strict : Bool) (fn file : String) (line : Int)
    (msg : String) (w : World) :
    warnfail_at_msg strict fn file line msg w =
      if strict then
        .exit 1 { w with cerr := w.cerr ++
          ("**** STRICT FAIL: " ++ located_text msg file (toString line) fn) }
      else
        .ret () { w with cerr := w.cerr ++
          ("**** WARNING: " ++ located_text msg file (toString line) fn) } := by
  cases strict <;>
    simp [warnfail_at_msg, located_text, bind, Proc.bind, pure, cerr_put, cerr_endl, exit,
      String.append_assoc]

theorem fail_msg_outcome (msg : String) (w : World) :
    fail_msg msg w =
      .exit 5 { w with cerr := w.cerr ++ ("**** FAILED: " ++ msg ++ "\n") } := by
  simp [fail_msg, bind, Proc.bind, cerr_put, cerr_endl, exit, String.append_assoc]

theorem fail_at_msg_outcome (file : String) (line : Int) (msg : String) (w : World) :
    fail_at_msg file line msg w =
      .exit 1 { w with cerr := w.cerr ++
        (msg ++ " in " ++ file ++ " at line " ++ toString line ++ "\n") } := by
  simp [fail_at_msg, bind, Proc.bind, cerr_put, cerr_endl, exit, String.append_assoc]

/-- C5: for every function name, file, line and message, the process is ended
by `warnfail_at_msg`, with exit code 1, if and only if `strict` is set. With
`strict` off it writes the line tagged `**** WARNING: ` to standard error and
returns; with `strict` on it writes the line tagged `**** STRICT FAIL: ` and
exits. After the tag the text (message, file, line, function) is the same. -/
theorem warnfail_at_msg_contract (strict : Bool) (fn file : String) (line : Int)
    (msg : String) (w : World) :
    (warnfail_at_msg false fn file line msg w =
      .ret () { w with cerr := w.cerr ++
        ("**** WARNING: " ++ located_text msg file (toString line) fn) }) ∧
    (warnfail_at_msg true fn file line msg w =
      .exit 1 { w with cerr := w.cerr ++
        ("**** STRICT FAIL: " ++ located_text msg file (toString line) fn) }) ∧
    ((warnfail_at_msg strict fn file line msg w).exitCode = some 1 ↔ strict = true) ∧
    ((warnfail_at_msg strict fn file line msg w).returned = true ↔ strict = false) := by
  refine ⟨warnfail_at_msg_outcome false fn file line msg w,
    warnfail_at_msg_outcome true fn file line msg w, ?_, ?_⟩ <;>
  · rw [warnfail_at_msg_outcome]
    cases strict <;> simp [Outcome.exitCode, Outcome.returned]

/-- C6: for every message, `fail_msg` writes `**** FAILED: <msg>` and a newline
to standard error and ends the process with exit code 5; it never returns. The
`std::string` overload is the same computation, and the code 5 differs from
the code 1 with which `__enforce_fail`, hence every enforce failure, exits. -/
theorem fail_msg_contract (msg text file func : String) (line : Nat) (s : Site) (w : World) :
    (fail_msg msg w =
      .exit 5 { w with cerr := w.cerr ++ ("**** FAILED: " ++ msg ++ "\n") }) ∧
    (fail_msg msg w).returned = false ∧
    fail_msg_string msg = fail_msg msg ∧
    (fail_msg msg w).exitCode = some 5 ∧
    (__enforce_fail text file line func w).exitCode = some 1 ∧
    (enforce (pure false) text s w).exitCode = some 1 ∧
    (enforce_msg (pure false) (pure text) s w).exitCode = some 1 ∧
    (enforce_str (pure false) (pure text) s w).exitCode = some 1 ∧
    (fail_msg msg w).exitCode ≠ (__enforce_fail text file line func w).exitCode := by
  refine ⟨fail_msg_outcome msg w, ?_, rfl, ?_, ?_, ?_, ?_, ?_, ?_⟩
  · simp [fail_msg_outcome, Outcome.returned]
  · simp [fail_msg_outcome, Outcome.exitCode]
  · simp [enforce_fail_outcome, Outcome.exitCode]
  · simp [enforce, bind, Proc.bind, pure, enforce_fail_outcome, Outcome.exitCode]
  · simp [enforce_msg_pure, Outcome.exitCode]
  · simp [enforce_str, bind, Proc.bind, pure, enforce_fail_outcome, Outcome.exitCode]
  · simp [fail_msg_outcome, enforce_fail_outcome, Outcome.exitCode]

/-- C7 at the input `fail_at_msg("param.cpp", 42, "bad option")`: the function
writes `bad option in param.cpp at line 42` to standard error, while
`fail_msg("bad option")` writes `**** FAILED: bad option`. The text written by
`fail_at_msg` does not begin with the tag `**** FAILED: `, so it is not the
tagged message of `fail_msg` with file and line appended. -/
theorem fail_at_msg_has_no_tag :
    (fail_at_msg "param.cpp" 42 "bad option" World.init).world.cerr =
      "bad option in param.cpp at line 42\n" ∧
    (fail_msg "bad option" World.init).world.cerr = "**** FAILED: bad option\n" ∧
    ¬ ("**** FAILED: ".data <+:
      (fail_at_msg "param.cpp" 42 "bad option" World.init).world.cerr.data) ∧
    fail_at_msg "param.cpp" 42 "bad option" World.init ≠
      .exit 1 { World.init with cerr := "**** FAILED: bad option in param.cpp at line 42\n" } := by
  decide

/-! ## Warnings, quiet mode and build modes -/

theorem warning_at_msg_outcome (file line msg : String) (w : World) :
    warning_at_msg (pure file) (pure line) (pure msg) w =
      .ret () { w with cerr := w.cerr ++
        ("**** WARNING: " ++ msg ++ " in " ++ file ++ " at line " ++ line ++ "\n") } := by
  simp [warning_at_msg, bind, Proc.bind, pure, cerr_put, cerr_endl, String.append_assoc]

theorem warning_msg_outcome (ndebug : Bool) (msg : String) (s : Site) (w : World) :
    warning_msg ndebug (pure msg) s w =
      .ret () { w with cerr := w.cerr ++
        (if ndebug then "**** WARNING: " ++ msg ++ "\n"
         else "**** WARNING: " ++ located_text msg s.file (toString s.line) s.func) } := by
  cases ndebug <;>
    simp [warning_msg, located_text, bind, Proc.bind, pure, cerr_put, cerr_endl,
      String.append_assoc]

theorem debug_msg_outcome (msg : String) (s : Site) (w : World) :
    debug_msg false (pure msg) s w =
      if w.flags.debug_mode then
        .ret () { w with cerr := w.cerr ++
          ("**** DEBUG: " ++ located_text msg s.file (toString s.line) s.func) }
      else .ret () w := by
  cases h : w.flags.debug_mode <;>
    simp [debug_msg, is_debug_mode, located_text, bind, Proc.bind, pure, cerr_put, cerr_endl,
      String.append_assoc, h]

/-- Appending a text that starts with a tag changes the stream. -/
theorem append_tag_ne (t tag rest : String) (h : 0 < tag.length) : t ++ (tag ++ rest) ≠ t := by
  intro heq
  have := congrArg String.length heq
  simp [String.length_append] at this
  omega

/-- C8, as stated, fails: after `debug_set_quiet_mode(true)` the quiet flag is
set, and `warning_at_msg`, `warning_msg` (in either build mode) and
`warnfail_at_msg` with `strict` off still write their `**** WARNING: ` line to
standard error. -/
theorem quiet_mode_keeps_warnings :
    (World.init.set_quiet true).flags.quiet_mode = true ∧
    (warning_at_msg (pure "lmm.cpp") (pure "88") (pure "K is ill conditioned!")
      (World.init.set_quiet true)).world.cerr =
      "**** WARNING: K is ill conditioned! in lmm.cpp at line 88\n" ∧
    (warning_msg true (pure "K is ill conditioned!") ⟨"lmm.cpp", 88, "CalcK"⟩
      (World.init.set_quiet true)).world.cerr =
      "**** WARNING: K is ill conditioned!\n" ∧
    (warning_msg false (pure "K is ill conditioned!") ⟨"lmm.cpp", 88, "CalcK"⟩
      (World.init.set_quiet true)).world.cerr =
      "**** WARNING: K is ill conditioned! in lmm.cpp at line 88 in CalcK\n" ∧
    (warnfail_at_msg false "CalcK" "lmm.cpp" 88 "K is ill conditioned!"
      (World.init.set_quiet true)).world.cerr =
      "**** WARNING: K is ill conditioned! in lmm.cpp at line 88 in CalcK\n" := by
  decide

/-- C8, amended: no operation of the header consults quiet mode. For every
flag state and either setting `q` of quiet mode, `warning_at_msg`, `warning_msg`
and `warnfail_at_msg` with `strict` off write their `**** WARNING: ` line to
standard error and return, and the fatal operations (the enforce family on a
false expression, `enforce_gsl`, `fail_msg`, `fail_at_msg`, `warnfail_at_msg`
with `strict` on) show exactly the same output and exit code with quiet mode
set as with quiet mode off. -/
theorem quiet_mode_is_not_consulted (q ndebug : Bool) (text msg file lineText fn : String)
    (line : Int) (r : Int) (gsl_strerror : Int → String) (s : Site) (w : World) :
    (warning_at_msg (pure file) (pure lineText) (pure msg) (w.set_quiet q) =
      .ret () { w.set_quiet q with cerr := w.cerr ++
        ("**** WARNING: " ++ msg ++ " in " ++ file ++ " at line " ++ lineText ++ "\n") }) ∧
    (warning_msg ndebug (pure msg) s (w.set_quiet q) =
      .ret () { w.set_quiet q with cerr := w.cerr ++
        (if ndebug then "**** WARNING: " ++ msg ++ "\n"
         else "**** WARNING: " ++ located_text msg s.file (toString s.line) s.func) }) ∧
    (warnfail_at_msg false fn file line msg (w.set_quiet q) =
      .ret () { w.set_quiet q with cerr := w.cerr ++
        ("**** WARNING: " ++ located_text msg file (toString line) fn) }) ∧
    (enforce (pure false) text s (w.set_quiet true)).observed =
      (enforce (pure false) text s (w.set_quiet false)).observed ∧
    (enforce_msg (pure false) (pure msg) s (w.set_quiet true)).observed =
      (enforce_msg (pure false) (pure msg) s (w.set_quiet false)).observed ∧
    (enforce_str (pure false) (pure msg) s (w.set_quiet true)).observed =
      (enforce_str (pure false) (pure msg) s (w.set_quiet false)).observed ∧
    (enforce_gsl gsl_strerror (pure r) s (w.set_quiet true)).observed =
      (enforce_gsl gsl_strerror (pure r) s (w.set_quiet false)).observed ∧
    (fail_msg msg (w.set_quiet true)).observed =
      (fail_msg msg (w.set_quiet false)).observed ∧
    (fail_msg_string msg (w.set_quiet true)).observed =
      (fail_msg_string msg (w.set_quiet false)).observed ∧
    (fail_at_msg file line msg (w.set_quiet true)).observed =
      (fail_at_msg file line msg (w.set_quiet false)).observed ∧
    (warnfail_at_msg true fn file line msg (w.set_quiet true)).observed =
      (warnfail_at_msg true fn file line msg (w.set_quiet false)).observed := by
  have hfs : fail_msg_string msg = fail_msg msg := rfl
  refine ⟨?_, ?_, ?_, ?_, ?_, ?_, ?_, ?_, ?_, ?_, ?_⟩
  · rw [warning_at_msg_outcome]; rfl
  · rw [warning_msg_outcome]; rfl
  · rw [warnfail_at_msg_outcome]; rfl
  · simp [enforce, bind, Proc.bind, pure, enforce_fail_outcome, Outcome.observed,
      Outcome.world, Outcome.exitCode, Outcome.returned, World.set_quiet, debug_set_quiet_mode]
  · simp [enforce_msg_pure, Outcome.observed,
      Outcome.world, Outcome.exitCode, Outcome.returned, World.set_quiet, debug_set_quiet_mode]
  · simp [enforce_str, c_str, bind, Proc.bind, pure, enforce_fail_outcome, Outcome.observed,
      Outcome.world, Outcome.exitCode, Outcome.returned, World.set_quiet, debug_set_quiet_mode]
  · by_cases h0 : r = 0 <;>
      simp [enforce_gsl, h0, bind, Proc.bind, pure, enforce_fail_outcome, Outcome.observed,
        Outcome.world, Outcome.exitCode, Outcome.returned, World.set_quiet,
        debug_set_quiet_mode]
  · simp [fail_msg_outcome, Outcome.observed,
      Outcome.world, Outcome.exitCode, Outcome.returned, World.set_quiet, debug_set_quiet_mode]
  · simp [hfs, fail_msg_outcome, Outcome.observed,
      Outcome.world, Outcome.exitCode, Outcome.returned, World.set_quiet, debug_set_quiet_mode]
  · simp [fail_at_msg_outcome, Outcome.observed,
      Outcome.world, Outcome.exitCode, Outcome.returned, World.set_quiet, debug_set_quiet_mode]
  · simp [warnfail_at_msg_outcome, Outcome.observed,
      Outcome.world, Outcome.exitCode, Outcome.returned, World.set_quiet, debug_set_quiet_mode]

/-- C9, as stated, fails: with `NDEBUG` defined `warning_msg` is not empty; on
the message `no intercept term` it writes `**** WARNING: no intercept term` to
standard error, so the world after it differs from the world before. -/
theorem warning_msg_ndebug_writes :
    warning_msg true (pure "no intercept term") ⟨"param.cpp", 310, "CheckParam"⟩ World.init =
      .ret () { World.init with cerr := "**** WARNING: no intercept term\n" } ∧
    warning_msg true (pure "no intercept term") ⟨"param.cpp", 310, "CheckParam"⟩ World.init ≠
      .ret () World.init := by
  decide

/-- C9, amended: with `NDEBUG` defined, `debug_msg` and `assert_issue` are
empty for every argument and flag state: they write nothing, evaluate none of
their arguments and never end the process. `warning_msg` is not empty in that
build: it writes `**** WARNING: <msg>` and a newline to standard error and
returns. Without `NDEBUG`, `debug_msg` writes its `**** DEBUG: ` line to
standard error if and only if `is_debug_mode()` is true, and returns. -/
theorem ndebug_and_debug_build_contract (msg : Proc String) (is_issue expr : Proc Bool)
    (text : String) (s : Site) (w : World) :
    debug_msg true msg s w = .ret () w ∧
    assert_issue true is_issue expr s w = .ret () w ∧
    (warning_msg true (pure text) s w =
      .ret () { w with cerr := w.cerr ++ ("**** WARNING: " ++ text ++ "\n") }) ∧
    (debug_msg false (pure text) s w =
      if w.flags.debug_mode then
        .ret () { w with cerr := w.cerr ++
          ("**** DEBUG: " ++ located_text text s.file (toString s.line) s.func) }
      else .ret () w) ∧
    ((debug_msg false (pure text) s w).world.cerr ≠ w.cerr ↔
      is_debug_mode w = .ret true w) := by
  refine ⟨rfl, rfl, ?_, debug_msg_outcome text s w, ?_⟩
  · rw [warning_msg_outcome]; rfl
  · rw [debug_msg_outcome]
    cases h : w.flags.debug_mode
    · simp [is_debug_mode, h, Outcome.world]
    · simp only [is_debug_mode, h, Outcome.world, if_true]
      exact ⟨fun _ => trivial, fun _ => append_tag_ne _ _ _ (by decide)⟩

/-- C10: without `NDEBUG`, for every value `i` of the issue condition and `e` of
the checked expression, `assert_issue` reports `FAIL: ISSUE assert` through the
enforce failure path and exits with code 1 if and only if `i` is true and `e`
is false; otherwise it returns with nothing written. When the issue condition
is false the checked expression is not evaluated, whatever it is; when it is
true the statement is `enforce_msg(expr, "FAIL: ISSUE assert")`. -/
theorem assert_issue_contract (i e : Bool) (expr : Proc Bool) (s : Site) (w : World) :
    (assert_issue false (pure i) (pure e) s w =
      if i = true ∧ e = false then
        .exit 1 { w with cout := w.cout ++ enforce_failed_line "FAIL: ISSUE assert" s }
      else .ret () w) ∧
    ((assert_issue false (pure i) (pure e) s w).exitCode = some 1 ↔ (i = true ∧ e = false)) ∧
    ((assert_issue false (pure i) (pure e) s w).returned = false ↔ (i = true ∧ e = false)) ∧
    assert_issue false (pure false) expr s w = .ret () w ∧
    assert_issue false (pure true) expr s = enforce_msg expr (pure "FAIL: ISSUE assert") s := by
  have key : assert_issue false (pure i) (pure e) s w =
      if i = true ∧ e = false then
        .exit 1 { w with cout := w.cout ++ enforce_failed_line "FAIL: ISSUE assert" s }
      else .ret () w := by
    cases i <;> cases e <;>
      simp [assert_issue, enforce_msg, bind, Proc.bind, pure, enforce_fail_outcome]
  refine ⟨key, ?_, ?_, rfl, rfl⟩
  · rw [key]; cases i <;> cases e <;> simp [Outcome.exitCode]
  · rw [key]; cases i <;> cases e <;> simp [Outcome.returned]

end Debug
